import Mathlib

/-!
Shallow embedding of the attack-pattern analysis engine of `ml_analyzer.py`
(class `AttackPatternAnalyzer` together with the module-level orchestrator
`train_models_on_attack_data`), and proofs settling claims about it.

Modelling conventions.  A pandas `DataFrame` is a fixed-schema `Frame`:
presence flags mirror pandas column membership (`col in df.columns`) and a
cell of a nullable column is an `Option` (a `none` is a NaN).  Timestamps are
seconds since the Unix epoch; pandas calendar accessors (`dt.hour`,
`dt.dayofweek`, `dt.month`, `dt.year`) and `Timedelta.days` are implemented
exactly.  Floating-point arithmetic is modelled exactly over `ℚ`.
Third-party fitting routines that are not part of this repository
(scikit-learn's `IsolationForest` and `RandomForestClassifier`, numpy's FFT)
are taken as explicit function parameters, so component results are verified
for an arbitrary backend; the `DBSCAN` clustering step, whose output the
claims inspect concretely, is implemented from its standard definition over
the pipeline's scaled feature space (squared distances stay rational even
though `StandardScaler` divides by a square root).
-/

namespace MLAnalyzer

/-! ### Generic helpers -/

/-- Median of a list of rationals, following pandas `Series.median` over the
present values: sort ascending, take the middle element for odd length, the
mean of the two middle elements for even length; `none` for the empty list
(pandas returns NaN there). -/
def medianOpt (l : List ℚ) : Option ℚ :=
  match List.insertionSort (fun a b : ℚ => a ≤ b) l with
  | [] => none
  | x :: xs =>
    let s := x :: xs
    if s.length % 2 = 1 then some (s.getD (s.length / 2) 0)
    else some ((s.getD (s.length / 2 - 1) 0 + s.getD (s.length / 2) 0) / 2)

/-- Round a rational to the nearest integer, ties going to the even integer
(the rounding used by Python's builtin `round`). -/
def roundHalfEven (q : ℚ) : ℤ :=
  let f := ⌊q⌋
  if q - f < 1 / 2 then f
  else if 1 / 2 < q - f then f + 1
  else if f % 2 = 0 then f else f + 1

/-- Python `round(x, 1)`: round to one decimal place, ties to even. -/
def roundTenth (q : ℚ) : ℚ := (roundHalfEven (10 * q) : ℚ) / 10

/-- Civil date `(year, month, day)` from a count of days since 1970-01-01
(Howard Hinnant's `civil_from_days`, restricted to nonnegative day counts,
which covers every representable timestamp here). -/
def civilFromDays (z0 : ℕ) : ℕ × ℕ × ℕ :=
  let z := z0 + 719468
  let era := z / 146097
  let doe := z % 146097
  let yoe := (doe - doe / 1460 + doe / 36524 - doe / 146096) / 365
  let y := yoe + era * 400
  let doy := doe - (365 * yoe + yoe / 4 - yoe / 100)
  let mp := (5 * doy + 2) / 153
  let d := doy - (153 * mp + 2) / 5 + 1
  let m := if mp < 10 then mp + 3 else mp - 9
  (if m ≤ 2 then y + 1 else y, m, d)

/-- pandas `Timestamp.hour` for an epoch-second value. -/
def tsHour (t : ℕ) : ℕ := t % 86400 / 3600

/-- pandas `Timestamp.dayofweek` (Monday = 0); 1970-01-01 was a Thursday. -/
def tsDow (t : ℕ) : ℕ := (t / 86400 + 3) % 7

/-- pandas `Timestamp.month` (1–12). -/
def tsMonth (t : ℕ) : ℕ := (civilFromDays (t / 86400)).2.1

/-- pandas `Timestamp.year`. -/
def tsYear (t : ℕ) : ℕ := (civilFromDays (t / 86400)).1

/-- Deduplicate keeping the first occurrence of each value (the order used by
pandas `Series.unique` and by `groupby` iteration up to key sorting; the
claims below never depend on group order). -/
def dedupKeepFirst {α : Type} [DecidableEq α] : List α → List α
  | [] => []
  | x :: xs => x :: (dedupKeepFirst xs).filter (fun y => y ≠ x)

/-- Maximum of a list of rationals, `0` for the empty list (the call sites
below only evaluate it on nonempty lists). -/
def listMaxQ : List ℚ → ℚ
  | [] => 0
  | x :: xs => xs.foldl max x

/-- Minimum of a list of naturals, `0` for the empty list. -/
def listMinNat : List ℕ → ℕ
  | [] => 0
  | x :: xs => xs.foldl min x

/-- Maximum of a list of naturals, `0` for the empty list. -/
def listMaxNat : List ℕ → ℕ
  | [] => 0
  | x :: xs => xs.foldl max x

/-! ### The data model -/

/-- One attack-event row.  Base fields mirror the stored columns
(an `Option` cell marks a missing value); `timestamp` is epoch seconds and is
always populated when the timestamp column exists, per the data model.
Derived fields (`hour_of_day` … `attack_type_frequency`) are meaningful only
when the owning `Frame`'s corresponding presence flag is set. -/
structure Row where
  attack_type : Option String := none
  source_country : Option String := none
  target_country : Option String := none
  data_source : Option String := none
  severity : Option String := none
  source_latitude : Option ℚ := none
  source_longitude : Option ℚ := none
  target_latitude : Option ℚ := none
  target_longitude : Option ℚ := none
  timestamp : ℕ := 0
  hour_of_day : ℕ := 0
  day_of_week : ℕ := 0
  month : ℕ := 0
  year : ℕ := 0
  weekend : ℕ := 0
  source_country_frequency : ℕ := 0
  attack_type_frequency : ℕ := 0
  deriving DecidableEq, Inhabited

/-- A pandas-style table.  Presence flags state which columns exist (pandas
`col in df.columns`); `rows` carries the cell values, and cells of absent
columns are ignored by every operation. -/
structure Frame where
  hasAttackType : Bool := false
  hasSourceCountry : Bool := false
  hasTargetCountry : Bool := false
  hasDataSource : Bool := false
  hasSeverity : Bool := false
  hasSourceLat : Bool := false
  hasSourceLon : Bool := false
  hasTargetLat : Bool := false
  hasTargetLon : Bool := false
  hasTimestamp : Bool := false
  hasDerived : Bool := false
  hasSourceFreq : Bool := false
  hasAttackFreq : Bool := false
  rows : List Row := []
  deriving DecidableEq, Inhabited

/-- The columnless, rowless frame `pd.DataFrame()`. -/
def Frame.empty : Frame := {}

/-! ### Feature Engineer: `AttackPatternAnalyzer.preprocess_data` -/

/-- Median of one numeric column over its present values
(`data[col].median()`). -/
def colMedian (df : Frame) (get : Row → Option ℚ) : Option ℚ :=
  medianOpt (df.rows.filterMap get)

/-- pandas `fillna(median)` on one cell.  Filling with NaN (median of an
all-missing column) leaves the cell unchanged. -/
def fillCell (m : Option ℚ) (v : Option ℚ) : Option ℚ :=
  match m with
  | none => v
  | some mv => some (v.getD mv)

/-- Categorical imputation `fillna('unknown')` read as a total value. -/
def fillCat (v : Option String) : String := v.getD "unknown"

/-- Frequency encoding: how many rows of the table carry value `v` in the
categorical column `get` after imputation (`value_counts` followed by
`map`). -/
def catCount (df : Frame) (get : Row → Option String) (v : String) : ℕ :=
  (df.rows.map (fun r => fillCat (get r))).count v

/-- One row of `preprocess_data`: temporal decomposition from `timestamp`,
median imputation of the numeric feature columns, sentinel imputation of the
categorical feature columns, and dataset-relative frequency encodings.
The four medians are precomputed over the input table. -/
def engineerRow (df : Frame) (mSlat mSlon mTlat mTlon : Option ℚ) (r : Row) : Row :=
  { r with
    hour_of_day := if df.hasTimestamp then tsHour r.timestamp else r.hour_of_day
    day_of_week := if df.hasTimestamp then tsDow r.timestamp else r.day_of_week
    month := if df.hasTimestamp then tsMonth r.timestamp else r.month
    year := if df.hasTimestamp then tsYear r.timestamp else r.year
    weekend := if df.hasTimestamp then (if 5 ≤ tsDow r.timestamp then 1 else 0) else r.weekend
    source_latitude :=
      if df.hasSourceLat then fillCell mSlat r.source_latitude else r.source_latitude
    source_longitude :=
      if df.hasSourceLon then fillCell mSlon r.source_longitude else r.source_longitude
    target_latitude :=
      if df.hasTargetLat then fillCell mTlat r.target_latitude else r.target_latitude
    target_longitude :=
      if df.hasTargetLon then fillCell mTlon r.target_longitude else r.target_longitude
    attack_type := if df.hasAttackType then some (fillCat r.attack_type) else r.attack_type
    source_country :=
      if df.hasSourceCountry then some (fillCat r.source_country) else r.source_country
    target_country :=
      if df.hasTargetCountry then some (fillCat r.target_country) else r.target_country
    data_source := if df.hasDataSource then some (fillCat r.data_source) else r.data_source
    source_country_frequency :=
      if df.hasSourceCountry then catCount df (fun x => x.source_country) (fillCat r.source_country)
      else r.source_country_frequency
    attack_type_frequency :=
      if df.hasAttackType then catCount df (fun x => x.attack_type) (fillCat r.attack_type)
      else r.attack_type_frequency }

/-- The nonempty branch of `preprocess_data`: every row is engineered, the
derived and frequency columns materialize when their inputs exist.
`severity` is deliberately untouched: it is absent from the analyzer's
`categorical_features` and `numerical_features` lists, so the source never
imputes it. -/
def engineerFrame (df : Frame) : Frame :=
  { df with
    hasDerived := df.hasTimestamp || df.hasDerived
    hasSourceFreq := df.hasSourceCountry || df.hasSourceFreq
    hasAttackFreq := df.hasAttackType || df.hasAttackFreq
    rows := df.rows.map (engineerRow df
      (colMedian df (fun x => x.source_latitude))
      (colMedian df (fun x => x.source_longitude))
      (colMedian df (fun x => x.target_latitude))
      (colMedian df (fun x => x.target_longitude))) }

/-- `AttackPatternAnalyzer.preprocess_data`: an empty input returns the
columnless empty table; otherwise the input is engineered in place on a
copy.  Textual timestamp parsing (`pd.to_datetime`) is the identity here
because timestamps are modelled as already-resolved instants. -/
def preprocess_data (df : Frame) : Frame :=
  if df.rows = [] then Frame.empty else engineerFrame df

/-! ### Shared feature-selection machinery of the clustering and anomaly
pipelines (`ColumnTransformer` over `StandardScaler` + `OneHotEncoder`) -/

/-- The numeric feature columns that `ColumnTransformer` routes to
`StandardScaler` when fitting the clustering and anomaly pipelines: every
selected column (i.e. everything except `id`, `timestamp`, `created_at`,
`updated_at`, none of which are feature columns here) that is not one of the
four `categorical_features`.  Cells are `Option ℚ`; a `none` models a NaN
reaching the scaler. -/
def numericColumns (df : Frame) : List (List (Option ℚ)) :=
  (if df.hasSourceLat then [df.rows.map (fun r => r.source_latitude)] else []) ++
  (if df.hasSourceLon then [df.rows.map (fun r => r.source_longitude)] else []) ++
  (if df.hasTargetLat then [df.rows.map (fun r => r.target_latitude)] else []) ++
  (if df.hasTargetLon then [df.rows.map (fun r => r.target_longitude)] else []) ++
  (if df.hasDerived then
    [df.rows.map (fun r => some (r.hour_of_day : ℚ)),
     df.rows.map (fun r => some (r.day_of_week : ℚ)),
     df.rows.map (fun r => some (r.month : ℚ)),
     df.rows.map (fun r => some (r.year : ℚ)),
     df.rows.map (fun r => some (r.weekend : ℚ))] else []) ++
  (if df.hasSourceFreq then
    [df.rows.map (fun r => some (r.source_country_frequency : ℚ))] else []) ++
  (if df.hasAttackFreq then
    [df.rows.map (fun r => some (r.attack_type_frequency : ℚ))] else [])

/-- The categorical feature columns that `OneHotEncoder` receives, read after
imputation (on an engineered table every cell is already `some`). -/
def catColumns (df : Frame) : List (List String) :=
  (if df.hasAttackType then [df.rows.map (fun r => fillCat r.attack_type)] else []) ++
  (if df.hasSourceCountry then [df.rows.map (fun r => fillCat r.source_country)] else []) ++
  (if df.hasTargetCountry then [df.rows.map (fun r => fillCat r.target_country)] else []) ++
  (if df.hasDataSource then [df.rows.map (fun r => fillCat r.data_source)] else [])

/-- Does any numeric feature cell still hold a NaN?  `StandardScaler.fit`
raises on such input, which the component's `except` clause converts into a
failure result. -/
def hasMissingNumeric (df : Frame) : Bool :=
  (numericColumns df).any (fun c => c.any (fun v => v.isNone))

/-- Population variance of a column (`StandardScaler` uses `ddof = 0`). -/
def colVariance (c : List ℚ) : ℚ :=
  if c.length = 0 then 0
  else
    let n : ℚ := (c.length : ℚ)
    let mu := c.sum / n
    (c.map (fun x => (x - mu) * (x - mu))).sum / n

/-- Squared euclidean distance between rows `i` and `j` of the transformed
feature matrix.  `StandardScaler` maps `x` to `(x - mean) / sqrt(var)` (with
the scale forced to 1 on a constant column), so squared coordinate
differences are `(x - y)^2 / var`; a one-hot encoded categorical column
contributes `0` when the values agree and `2` when they differ.  Working
with squared distances keeps everything rational. -/
def scaledSqDist (cols : List (List ℚ)) (cats : List (List String)) (i j : ℕ) : ℚ :=
  (cols.map (fun c =>
    let v := colVariance c
    let dv := c.getD i 0 - c.getD j 0
    dv * dv / (if v = 0 then 1 else v))).sum +
  (cats.map (fun c => if c.getD i "" = c.getD j "" then (0 : ℚ) else 2)).sum

/-! ### DBSCAN (`DBSCAN(eps=0.5, min_samples=5)`), defined over squared
distances; `epsSq` is `eps^2`.  Cluster labels are canonical component
representatives (the least row index of the core component) rather than
scikit-learn's discovery-order integers: the noise set, the set of clusters
and all cluster sizes coincide with the library's, which is all the results
below expose.  A border point is attached to its lowest-indexed core
neighbour (the library attaches it to whichever core claims it first; the
choice never affects the noise set or the cluster count). -/

/-- Is row `i` a core point: at least `minPts` rows (itself included) within
distance `eps`? -/
def dbscanCore (dist : ℕ → ℕ → ℚ) (n minPts : ℕ) (epsSq : ℚ) (i : ℕ) : Bool :=
  minPts ≤ ((List.range n).filter (fun j => decide (dist i j ≤ epsSq))).length

/-- Apply `f` to `s`, `k` times. -/
def iterApply {α : Type} (f : α → α) : ℕ → α → α
  | 0, s => s
  | Nat.succ k, s => iterApply f k (f s)

/-- The connected component of core point `i` in the graph of core points
linked by distance at most `eps`; computed as an `n`-fold monotone closure,
which reaches the fixpoint because the graph has `n` vertices. -/
def dbscanComponent (dist : ℕ → ℕ → ℚ) (n minPts : ℕ) (epsSq : ℚ) (i : ℕ) : List ℕ :=
  iterApply
    (fun s => (List.range n).filter (fun j =>
      dbscanCore dist n minPts epsSq j &&
        (s.contains j || s.any (fun k => decide (dist j k ≤ epsSq)))))
    n
    (if dbscanCore dist n minPts epsSq i then [i] else [])

/-- The DBSCAN label of every row: its component representative for a core
point, the representative of the nearest-indexed core neighbour for a border
point, `-1` (noise) otherwise. -/
def dbscanLabels (dist : ℕ → ℕ → ℚ) (n minPts : ℕ) (epsSq : ℚ) : List ℤ :=
  (List.range n).map (fun i =>
    if dbscanCore dist n minPts epsSq i then
      (listMinNat (dbscanComponent dist n minPts epsSq i) : ℤ)
    else
      match (List.range n).find? (fun j =>
          dbscanCore dist n minPts epsSq j && decide (dist i j ≤ epsSq)) with
      | some j => (listMinNat (dbscanComponent dist n minPts epsSq j) : ℤ)
      | none => -1)

/-! ### Pattern Clusterer: `AttackPatternAnalyzer.train_clustering_model` -/

/-- Result shape of the clustering component.  A failure carries only
`success = False` and a message, mirroring the source's failure dictionary;
payload fields then keep their defaults.  `labels` is the `cluster` column of
the returned `clustered_data`. -/
structure ClusteringResult where
  success : Bool := false
  message : String := ""
  n_clusters : ℕ := 0
  noise_percentage : ℚ := 0
  cluster_counts : List (ℤ × ℕ) := []
  labels : List ℤ := []
  deriving DecidableEq, Inhabited

/-- Descending-count order used for `value_counts` output. -/
def countGe (a b : ℤ × ℕ) : Prop := b.2 ≤ a.2

instance : DecidableRel countGe := fun a b =>
  inferInstanceAs (Decidable (b.2 ≤ a.2))

/-- The DBSCAN labels of an engineered table under the fitted pipeline
(`eps = 0.5`, `min_samples = 5`, so `epsSq = 1/4`). -/
def clusterLabels (data : Frame) : List ℤ :=
  dbscanLabels
    (scaledSqDist ((numericColumns data).map (fun c => c.map (fun v => v.getD 0)))
      (catColumns data))
    data.rows.length 5 (1 / 4)

/-- `AttackPatternAnalyzer.train_clustering_model`.  The two non-empty
failure branches model the exceptions `StandardScaler` raises on a string
column (the `severity` column is routed to the numeric transformer because
it is missing from `categorical_features`) and on NaN input; both are caught
by the component's `except` clause and surfaced as failure results, and the
exact message texts stand in for the library's. -/
def train_clustering_model (df : Frame) : ClusteringResult :=
  if df.rows = [] then { success := false, message := "No data provided" }
  else
    let data := preprocess_data df
    if data.hasSeverity then
      { success := false, message := "could not convert string to float" }
    else if hasMissingNumeric data then
      { success := false, message := "Input contains NaN" }
    else
      let labels := clusterLabels data
      { success := true
        n_clusters := ((dedupKeepFirst labels).filter (fun l => l ≠ -1)).length
        noise_percentage :=
          if labels.length = 0 then 0
          else ((labels.count (-1) : ℚ) / (labels.length : ℚ)) * 100
        cluster_counts := List.insertionSort countGe
          ((dedupKeepFirst labels).map (fun l => (l, labels.count l)))
        labels := labels }

/-! ### Anomaly Scorer: `AttackPatternAnalyzer.train_anomaly_detection_model` -/

/-- Result shape of the anomaly component.  `is_anomaly` is the binary
column `np.where(predictions == -1, 1, 0)`; `anomalous` pairs each flagged
row index with its score, sorted ascending by score (most anomalous
first). -/
structure AnomalyResult where
  success : Bool := false
  message : String := ""
  anomaly_percentage : ℚ := 0
  anomaly_count : ℕ := 0
  is_anomaly : List ℕ := []
  anomaly_scores : List ℚ := []
  anomalous : List (ℕ × ℚ) := []
  deriving DecidableEq, Inhabited

/-- Ascending-score order used to surface the most anomalous rows. -/
def scoreLe (a b : ℕ × ℚ) : Prop := a.2 ≤ b.2

instance : DecidableRel scoreLe := fun a b =>
  inferInstanceAs (Decidable (a.2 ≤ b.2))

/-- `AttackPatternAnalyzer.train_anomaly_detection_model`.  The
`IsolationForest` fit is library code outside this repository and is taken
as the `forest` parameter: given the engineered table, the contamination
rate and the random seed it returns the decision scores and the raw
predictions (`-1` = anomaly).  The source hard-codes `random_state=42`,
which is the only seed the component ever passes. -/
def train_anomaly_detection_model (forest : Frame → ℚ → ℕ → List ℚ × List ℤ)
    (df : Frame) (contamination : ℚ) : AnomalyResult :=
  if df.rows = [] then { success := false, message := "No data provided" }
  else
    let data := preprocess_data df
    if data.hasSeverity then
      { success := false, message := "could not convert string to float" }
    else if hasMissingNumeric data then
      { success := false, message := "Input contains NaN" }
    else
      let sp := forest data contamination 42
      let flags := sp.2.map (fun p => if p = -1 then (1 : ℕ) else 0)
      { success := true
        anomaly_percentage :=
          if data.rows.length = 0 then 0
          else ((flags.sum : ℚ) / (data.rows.length : ℚ)) * 100
        anomaly_count := flags.sum
        is_anomaly := flags
        anomaly_scores := sp.1
        anomalous := List.insertionSort scoreLe
          (((List.range data.rows.length).zip sp.1).filter
            (fun p => flags.getD p.1 0 = 1)) }

/-! ### Target Predictor: `AttackPatternAnalyzer.train_target_prediction_model` -/

/-- Result shape of the prediction component.  The held-out metrics,
confusion matrix and feature importances are produced by library code and
are not modelled field-by-field; no claim inspects them. -/
structure PredictionResult where
  success : Bool := false
  message : String := ""
  deriving DecidableEq, Inhabited

/-- `AttackPatternAnalyzer.train_target_prediction_model`.  Everything past
the structural `target_country` check (the seeded 80/20 split, the
random-forest fit, metric computation, and the data-shape exceptions those
can raise) happens inside third-party library code and is modelled by the
`classifier` parameter applied to the engineered table. -/
def train_target_prediction_model (classifier : Frame → PredictionResult)
    (df : Frame) : PredictionResult :=
  if df.rows = [] then { success := false, message := "No data provided" }
  else
    let data := preprocess_data df
    if data.hasTargetCountry = false then
      { success := false, message := "Target country column is required for prediction" }
    else classifier data

/-! ### Temporal Analyzer: `AttackPatternAnalyzer.analyze_temporal_patterns` -/

/-- Result shape of the temporal component.  Histograms are `groupby(...).size()`
dictionaries listed by ascending key; `periodic_patterns` pairs
`round(period_days, 1)` with the component's magnitude (`strength`). -/
structure TemporalResult where
  success : Bool := false
  message : String := ""
  hourly_pattern : List (ℕ × ℕ) := []
  daily_pattern : List (ℕ × ℕ) := []
  monthly_pattern : List (ℕ × ℕ) := []
  peak_hour : ℕ := 0
  peak_day : String := ""
  peak_month : String := ""
  periodic_patterns : List (ℚ × ℚ) := []
  deriving DecidableEq, Inhabited

/-- `groupby(key).size()`: distinct keys ascending, each with its count. -/
def histogram (keys : List ℕ) : List (ℕ × ℕ) :=
  (List.insertionSort (fun a b : ℕ => a ≤ b) (dedupKeepFirst keys)).map
    (fun k => (k, keys.count k))

/-- pandas `idxmax`: the first key attaining the maximal count. -/
def idxmax (h : List (ℕ × ℕ)) : ℕ :=
  match h with
  | [] => 0
  | p :: ps => (ps.foldl (fun best q => if best.2 < q.2 then q else best) p).1

/-- The timestamps of the engineered table. -/
def tempTimestamps (df : Frame) : List ℕ :=
  (preprocess_data df).rows.map (fun r => r.timestamp)

/-- `data.resample('D', on='timestamp').size()`: one count per calendar day
from the floor-day of the earliest event to the floor-day of the latest,
empty days included. -/
def dailyCounts (ts : List ℕ) : List ℕ :=
  let days := ts.map (fun t => t / 86400)
  let d0 := listMinNat days
  let d1 := listMaxNat days
  (List.range (d1 - d0 + 1)).map (fun k => days.count (d0 + k))

/-- The daily event-count series the spectral step runs on. -/
def tempSeries (df : Frame) : List ℕ := dailyCounts (tempTimestamps df)

/-- FFT magnitudes of the daily series under backend `A`, which models
`fun v => np.abs(np.fft.fft(v))` (library code outside this repository). -/
def fftMagList (A : List ℚ → List ℚ) (counts : List ℕ) : List ℚ :=
  A (counts.map (fun c => (c : ℚ)))

/-- The maximal magnitude over the non-DC half-spectrum
`abs(fft_values[1 : len//2])`, the comparison base of the 10% filter. -/
def halfMax (A : List ℚ → List ℚ) (counts : List ℕ) : ℚ :=
  listMaxQ ((List.range' 1 (counts.length / 2 - 1)).map
    (fun i => (fftMagList A counts).getD i 0))

/-- The loop over `range(1, len(fft_freq)//2)`: keep index `i` when its
magnitude exceeds 10% of the non-DC maximum, convert it to the period
`n / i` days (`1 / abs(fftfreq(n)[i])`), and keep periods above one day. -/
def fftCandidates (A : List ℚ → List ℚ) (counts : List ℕ) : List (ℚ × ℚ) :=
  (List.range' 1 (counts.length / 2 - 1)).filterMap (fun i =>
    if halfMax A counts / 10 < (fftMagList A counts).getD i 0 then
      if (1 : ℚ) < (counts.length : ℚ) / (i : ℚ) then
        some ((counts.length : ℚ) / (i : ℚ), (fftMagList A counts).getD i 0)
      else none
    else none)

/-- Descending-strength order for dominant periods. -/
def strengthGe (a b : ℚ × ℚ) : Prop := b.2 ≤ a.2

instance : DecidableRel strengthGe := fun a b =>
  inferInstanceAs (Decidable (b.2 ≤ a.2))

instance : IsTotal (ℚ × ℚ) strengthGe :=
  ⟨fun a b => le_total b.2 a.2⟩

instance : IsTrans (ℚ × ℚ) strengthGe :=
  ⟨fun _ _ _ h1 h2 => le_trans h2 h1⟩

/-- Dominant periods sorted by amplitude descending, top 3. -/
def topPeriods (A : List ℚ → List ℚ) (counts : List ℕ) : List (ℚ × ℚ) :=
  (List.insertionSort strengthGe (fftCandidates A counts)).take 3

/-- `AttackPatternAnalyzer.analyze_temporal_patterns`.  The spectral branch
runs only when the earliest timestamp plus 14 days does not exceed the
latest. -/
def analyze_temporal_patterns (A : List ℚ → List ℚ) (df : Frame) : TemporalResult :=
  if df.rows = [] then { success := false, message := "No data provided" }
  else
    let data := preprocess_data df
    if data.hasTimestamp = false then
      { success := false, message := "Timestamp column is required for temporal analysis" }
    else
      let ts := tempTimestamps df
      let hourly := histogram (ts.map tsHour)
      let daily := histogram (ts.map tsDow)
      let monthly := histogram (ts.map tsMonth)
      let dayNames := ["Monday", "Tuesday", "Wednesday", "Thursday", "Friday",
        "Saturday", "Sunday"]
      let monthNames := ["January", "February", "March", "April", "May", "June",
        "July", "August", "September", "October", "November", "December"]
      let top :=
        if listMinNat ts + 14 * 86400 ≤ listMaxNat ts then topPeriods A (tempSeries df)
        else []
      { success := true
        hourly_pattern := hourly
        daily_pattern := daily
        monthly_pattern := monthly
        peak_hour := idxmax hourly
        peak_day := dayNames.getD (idxmax daily) ""
        peak_month := monthNames.getD (idxmax monthly - 1) ""
        periodic_patterns := top.map (fun p => (roundTenth p.1, p.2)) }

/-! ### Campaign Correlator: `AttackPatternAnalyzer.identify_attack_campaign` -/

/-- One identified campaign.  `start_ts` and `end_ts` hold the earliest and
latest event instants (the source renders them with `strftime`, a
presentation detail); `timespan_days` is `Timedelta.days`, i.e. the floor of
the span in days. -/
structure Campaign where
  source_country : String := ""
  target_country : String := ""
  attack_type : String := ""
  attack_count : ℕ := 0
  start_ts : ℕ := 0
  end_ts : ℕ := 0
  timespan_days : ℕ := 0
  attack_frequency : ℚ := 0
  data_sources : List String := []
  severity : String := ""
  deriving DecidableEq, Inhabited

/-- Result shape of the campaign component. -/
structure CampaignResult where
  success : Bool := false
  message : String := ""
  campaigns : List Campaign := []
  campaign_count : ℕ := 0
  param_timespan_days : ℤ := 0
  param_min_attacks : ℤ := 0
  deriving DecidableEq, Inhabited

/-- Descending-attack-count order of the returned campaign list. -/
def campGe (a b : Campaign) : Prop := b.attack_count ≤ a.attack_count

instance : DecidableRel campGe := fun a b =>
  inferInstanceAs (Decidable (b.attack_count ≤ a.attack_count))

instance : IsTotal Campaign campGe :=
  ⟨fun a b => le_total b.attack_count a.attack_count⟩

instance : IsTrans Campaign campGe :=
  ⟨fun _ _ _ h1 h2 => le_trans h2 h1⟩

/-- Ascending-timestamp order used to sort a group's rows. -/
def tsLe (a b : Row) : Prop := a.timestamp ≤ b.timestamp

instance : DecidableRel tsLe := fun a b =>
  inferInstanceAs (Decidable (a.timestamp ≤ b.timestamp))

/-- `group['severity'].mode()[0]` when the severity column exists and is not
all-missing, `'Unknown'` otherwise.  pandas `mode` returns the most frequent
values sorted, so a tie resolves to the lexicographically least. -/
def severityMode (hasSev : Bool) (g : List Row) : String :=
  if hasSev then
    match g.filterMap (fun r => r.severity) with
    | [] => "Unknown"
    | v :: vs =>
      let vals := v :: vs
      let cands := dedupKeepFirst vals
      let mc := listMaxNat (cands.map (fun c => vals.count c))
      let modes := cands.filter (fun c => vals.count c = mc)
      modes.foldl (fun a b => if b < a then b else a) (modes.getD 0 v)
  else "Unknown"

/-- The `(source_country, target_country, attack_type)` grouping key of a
row of the engineered table. -/
def groupKey (r : Row) : String × String × String :=
  (fillCat r.source_country, fillCat r.target_country, fillCat r.attack_type)

/-- The body of the campaign loop for one group: skip groups below
`min_attacks`; compute the group's day span; keep it only when the span is
within `timespan_days`, recording the count, the span, the per-day frequency
(`len / max(span, 1)`), the distinct contributing data sources and the
dominant severity. -/
def campaignOfGroup (hasDS hasSev : Bool) (timespanDays minAttacks : ℤ)
    (k : String × String × String) (g : List Row) : Option Campaign :=
  if (g.length : ℤ) < minAttacks then none
  else
    let gs := List.insertionSort tsLe g
    let tmin := listMinNat (g.map (fun r => r.timestamp))
    let tmax := listMaxNat (g.map (fun r => r.timestamp))
    let span := (tmax - tmin) / 86400
    if (span : ℤ) ≤ timespanDays then
      some { source_country := k.1
             target_country := k.2.1
             attack_type := k.2.2
             attack_count := g.length
             start_ts := tmin
             end_ts := tmax
             timespan_days := span
             attack_frequency := (g.length : ℚ) / ((max span 1 : ℕ) : ℚ)
             data_sources :=
               if hasDS then dedupKeepFirst (gs.map (fun r => fillCat r.data_source)) else []
             severity := severityMode hasSev gs }
    else none

/-- `AttackPatternAnalyzer.identify_attack_campaign`.  Grouping happens only
when all three structural grouping columns exist; with any of them absent
the loop body never runs and the call still succeeds with an empty campaign
list.  A missing timestamp column is the only structural failure. -/
def identify_attack_campaign (df : Frame) (timespanDays minAttacks : ℤ) : CampaignResult :=
  if df.rows = [] then { success := false, message := "No data provided" }
  else
    let data := preprocess_data df
    if data.hasTimestamp = false then
      { success := false, message := "Timestamp column is required for campaign identification" }
    else
      let campaigns :=
        if data.hasSourceCountry && data.hasTargetCountry && data.hasAttackType then
          (dedupKeepFirst (data.rows.map groupKey)).filterMap (fun k =>
            campaignOfGroup data.hasDataSource data.hasSeverity timespanDays minAttacks k
              (data.rows.filter (fun r => groupKey r = k)))
        else []
      let sorted := List.insertionSort campGe campaigns
      { success := true
        campaigns := sorted
        campaign_count := sorted.length
        param_timespan_days := timespanDays
        param_min_attacks := minAttacks }

/-! ### Analysis Orchestrator: module-level `train_models_on_attack_data` -/

/-- Aggregated result bundle.  The database retrieval
(`db_manager.get_attacks` + `attacks_to_dataframe`) is modelled by taking
the materialized table directly; the wall-clock run timestamp and the
`timeframe` echo are presentation fields and are omitted. -/
structure OrchestratorResult where
  success : Bool := false
  message : String := ""
  data_size : ℕ := 0
  clustering : ClusteringResult := {}
  anomaly : AnomalyResult := {}
  prediction : PredictionResult := {}
  temporal : TemporalResult := {}
  campaigns : CampaignResult := {}
  deriving DecidableEq, Inhabited

/-- `train_models_on_attack_data`: short-circuit on an empty table, then run
the five components on the raw table (each preprocesses internally) with the
source's default parameters (`contamination = 0.05`,
`timespan_days = 30`, `min_attacks = 5`). -/
def train_models_on_attack_data (forest : Frame → ℚ → ℕ → List ℚ × List ℤ)
    (classifier : Frame → PredictionResult) (A : List ℚ → List ℚ)
    (df : Frame) : OrchestratorResult :=
  if df.rows = [] then { success := false, message := "No attack data available" }
  else
    { success := true
      data_size := df.rows.length
      clustering := train_clustering_model df
      anomaly := train_anomaly_detection_model forest df (5 / 100)
      prediction := train_target_prediction_model classifier df
      temporal := analyze_temporal_patterns A df
      campaigns := identify_attack_campaign df 30 5 }

/-- Modelled from the spec (§4.7): the orchestrator as the specification
words it — run the Feature Engineer exactly once, short-circuit with a
single failure when it returns the empty table, and hand the one shared
engineered table to components 4.2–4.6 (each still fits its own
scaling/encoding preprocessing internally).  Stated only to be compared with
the source orchestrator above. -/
def train_models_spec (forest : Frame → ℚ → ℕ → List ℚ × List ℤ)
    (classifier : Frame → PredictionResult) (A : List ℚ → List ℚ)
    (df : Frame) : OrchestratorResult :=
  let E := preprocess_data df
  if E.rows = [] then { success := false, message := "No attack data available" }
  else
    { success := true
      data_size := E.rows.length
      clustering := train_clustering_model E
      anomaly := train_anomaly_detection_model forest E (5 / 100)
      prediction := train_target_prediction_model classifier E
      temporal := analyze_temporal_patterns A E
      campaigns := identify_attack_campaign E 30 5 }

/-! ### Concrete backends and tables used to instantiate the theorems -/

/-- An arbitrary concrete `IsolationForest` backend, used only to evaluate
the embedded components at concrete inputs. -/
def trivialForest : Frame → ℚ → ℕ → List ℚ × List ℤ := fun _ _ _ => ([], [])

/-- A second concrete forest backend that agrees with `trivialForest` at
seed 42 and differs elsewhere. -/
def altForest : Frame → ℚ → ℕ → List ℚ × List ℤ :=
  fun _ _ s => if s = 42 then ([], []) else ([1], [-1])

/-- An arbitrary concrete classifier backend. -/
def trivialClassifier : Frame → PredictionResult :=
  fun _ => { success := false, message := "classifier fit not modelled" }

/-- The identity magnitude backend (a concrete stand-in for the FFT). -/
def idMag : List ℚ → List ℚ := fun l => l

/-- One fully-populated single-row table on the clustering happy path. -/
def T1 : Frame :=
  { hasAttackType := true, hasSourceCountry := true, hasTimestamp := true
    rows := [{ attack_type := some "ddos", source_country := some "aa", timestamp := 0 }] }

/-- Five events sharing one `(source, target, type)` key across four days. -/
def T2 : Frame :=
  { hasAttackType := true, hasSourceCountry := true, hasTargetCountry := true
    hasTimestamp := true
    rows :=
      [{ attack_type := some "a", source_country := some "b", target_country := some "y",
         timestamp := 0 },
       { attack_type := some "a", source_country := some "b", target_country := some "y",
         timestamp := 86400 },
       { attack_type := some "a", source_country := some "b", target_country := some "y",
         timestamp := 172800 },
       { attack_type := some "a", source_country := some "b", target_country := some "y",
         timestamp := 259200 },
       { attack_type := some "a", source_country := some "b", target_country := some "y",
         timestamp := 345600 }] }

/-- A table whose only numeric column is entirely missing. -/
def T4 : Frame :=
  { hasSourceLat := true, hasAttackType := true
    rows := [{ attack_type := some "x", source_latitude := none }] }

/-- The one campaign `identify_attack_campaign` extracts from `T2` with
`timespan_days = 30`, `min_attacks = 5`. -/
def C2w : Campaign :=
  { source_country := "b", target_country := "y", attack_type := "a", attack_count := 5,
    start_ts := 0, end_ts := 345600, timespan_days := 4, attack_frequency := 5 / 4,
    data_sources := [], severity := "Unknown" }

/-- A nonempty table with a timestamp column but no `source_country`
column. -/
def T5 : Frame :=
  { hasAttackType := true, hasTargetCountry := true, hasTimestamp := true
    rows := [{ attack_type := some "x", target_country := some "y", timestamp := 0 }] }

/-- Two timestamped events twenty days apart. -/
def T6 : Frame :=
  { hasAttackType := true, hasTimestamp := true
    rows := [{ attack_type := some "x", timestamp := 0 },
             { attack_type := some "x", timestamp := 1728000 }] }

/-- One row with a missing `source_country` next to one carrying the
literal string `unknown`. -/
def T9 : Frame :=
  { hasAttackType := true, hasSourceCountry := true
    rows := [{ attack_type := none, source_country := none },
             { attack_type := some "unknown", source_country := some "unknown" }] }

/-- A nonempty table on which every component fails: the `severity` column
breaks the clustering and anomaly pipelines, `target_country` is absent for
the predictor, and `timestamp` is absent for the temporal and campaign
components. -/
def F0 : Frame :=
  { hasAttackType := true, hasSourceCountry := true, hasSeverity := true
    rows := [{ attack_type := some "a", source_country := some "b",
               severity := some "High" }] }

/-! ### Supporting lemmas -/

lemma fillCell_some (m : Option ℚ) (x : ℚ) : fillCell m (some x) = some x := by
  cases m <;> rfl

lemma fillCat_some (s : String) : fillCat (some s) = s := rfl

lemma medianOpt_eq_none {l : List ℚ} : medianOpt l = none ↔ l = [] := by
  unfold medianOpt
  rcases hs : List.insertionSort (fun a b : ℚ => a ≤ b) l with _ | ⟨x, xs⟩
  · have hp := (List.perm_insertionSort (fun a b : ℚ => a ≤ b) l).symm
    rw [hs] at hp
    simp [hp.eq_nil]
  · have hp := (List.perm_insertionSort (fun a b : ℚ => a ≤ b) l).symm
    rw [hs] at hp
    constructor
    · intro h
      exfalso
      dsimp only at h
      split at h <;> exact Option.noConfusion h
    · intro h
      exfalso
      rw [h] at hp
      exact absurd hp.length_eq (by simp)

lemma engineerFrame_rows_ne_nil {df : Frame} (h : df.rows ≠ []) :
    (engineerFrame df).rows ≠ [] := by
  simpa [engineerFrame] using h

lemma preprocess_rows_length (df : Frame) :
    (preprocess_data df).rows.length = df.rows.length := by
  unfold preprocess_data
  split
  · rename_i h
    simp [Frame.empty, h]
  · simp [engineerFrame]

lemma preprocess_rows_eq_nil (df : Frame) :
    (preprocess_data df).rows = [] ↔ df.rows = [] := by
  constructor
  · intro h
    by_contra hne
    have := preprocess_rows_length df
    rw [h] at this
    exact hne (List.length_eq_zero.mp this.symm)
  · intro h
    simp [preprocess_data, h, Frame.empty]

lemma preprocess_hasTimestamp {df : Frame} (h : df.rows ≠ []) :
    (preprocess_data df).hasTimestamp = df.hasTimestamp := by
  simp [preprocess_data, h, engineerFrame]

lemma preprocess_hasTargetCountry {df : Frame} (h : df.rows ≠ []) :
    (preprocess_data df).hasTargetCountry = df.hasTargetCountry := by
  simp [preprocess_data, h, engineerFrame]

lemma preprocess_hasSourceCountry {df : Frame} (h : df.rows ≠ []) :
    (preprocess_data df).hasSourceCountry = df.hasSourceCountry := by
  simp [preprocess_data, h, engineerFrame]

lemma preprocess_hasAttackType {df : Frame} (h : df.rows ≠ []) :
    (preprocess_data df).hasAttackType = df.hasAttackType := by
  simp [preprocess_data, h, engineerFrame]

lemma engineerFrame_hasAttackType (df : Frame) :
    (engineerFrame df).hasAttackType = df.hasAttackType := rfl

lemma engineerFrame_hasSourceCountry (df : Frame) :
    (engineerFrame df).hasSourceCountry = df.hasSourceCountry := rfl

lemma engineerFrame_hasTargetCountry (df : Frame) :
    (engineerFrame df).hasTargetCountry = df.hasTargetCountry := rfl

lemma engineerFrame_hasDataSource (df : Frame) :
    (engineerFrame df).hasDataSource = df.hasDataSource := rfl

lemma engineerFrame_hasSourceLat (df : Frame) :
    (engineerFrame df).hasSourceLat = df.hasSourceLat := rfl

lemma engineerFrame_hasSourceLon (df : Frame) :
    (engineerFrame df).hasSourceLon = df.hasSourceLon := rfl

lemma engineerFrame_hasTargetLat (df : Frame) :
    (engineerFrame df).hasTargetLat = df.hasTargetLat := rfl

lemma engineerFrame_hasTargetLon (df : Frame) :
    (engineerFrame df).hasTargetLon = df.hasTargetLon := rfl

lemma engineerFrame_hasTimestamp (df : Frame) :
    (engineerFrame df).hasTimestamp = df.hasTimestamp := rfl

lemma fill_idem_slat (df : Frame) (v : Option ℚ) :
    fillCell (colMedian (engineerFrame df) (fun x => x.source_latitude))
      (fillCell (colMedian df (fun x => x.source_latitude)) v)
    = fillCell (colMedian df (fun x => x.source_latitude)) v := by
  rcases hm : colMedian df (fun x => x.source_latitude) with _ | mv
  · have hnil : List.filterMap (fun x => x.source_latitude) df.rows = [] := by
      have hc := hm
      unfold colMedian at hc
      exact medianOpt_eq_none.mp hc
    have h2 : colMedian (engineerFrame df) (fun x => x.source_latitude) = none := by
      unfold colMedian
      rw [medianOpt_eq_none]
      rw [engineerFrame]
      dsimp only
      rw [List.filterMap_map]
      have hfun : ((fun x : Row => x.source_latitude) ∘
          engineerRow df (colMedian df (fun x => x.source_latitude))
            (colMedian df (fun x => x.source_longitude))
            (colMedian df (fun x => x.target_latitude))
            (colMedian df (fun x => x.target_longitude)))
          = fun x : Row => x.source_latitude := by
        funext x
        simp only [Function.comp_apply, engineerRow, hm]
        cases df.hasSourceLat <;> simp [fillCell]
      rw [hfun]
      exact hnil
    rw [h2]
    rfl
  · have hv : fillCell (some mv) v = some (v.getD mv) := rfl
    rw [hv]
    exact fillCell_some _ _

lemma fill_idem_slon (df : Frame) (v : Option ℚ) :
    fillCell (colMedian (engineerFrame df) (fun x => x.source_longitude))
      (fillCell (colMedian df (fun x => x.source_longitude)) v)
    = fillCell (colMedian df (fun x => x.source_longitude)) v := by
  rcases hm : colMedian df (fun x => x.source_longitude) with _ | mv
  · have hnil : List.filterMap (fun x => x.source_longitude) df.rows = [] := by
      have hc := hm
      unfold colMedian at hc
      exact medianOpt_eq_none.mp hc
    have h2 : colMedian (engineerFrame df) (fun x => x.source_longitude) = none := by
      unfold colMedian
      rw [medianOpt_eq_none]
      rw [engineerFrame]
      dsimp only
      rw [List.filterMap_map]
      have hfun : ((fun x : Row => x.source_longitude) ∘
          engineerRow df (colMedian df (fun x => x.source_latitude))
            (colMedian df (fun x => x.source_longitude))
            (colMedian df (fun x => x.target_latitude))
            (colMedian df (fun x => x.target_longitude)))
          = fun x : Row => x.source_longitude := by
        funext x
        simp only [Function.comp_apply, engineerRow, hm]
        cases df.hasSourceLon <;> simp [fillCell]
      rw [hfun]
      exact hnil
    rw [h2]
    rfl
  · have hv : fillCell (some mv) v = some (v.getD mv) := rfl
    rw [hv]
    exact fillCell_some _ _

lemma fill_idem_tlat (df : Frame) (v : Option ℚ) :
    fillCell (colMedian (engineerFrame df) (fun x => x.target_latitude))
      (fillCell (colMedian df (fun x => x.target_latitude)) v)
    = fillCell (colMedian df (fun x => x.target_latitude)) v := by
  rcases hm : colMedian df (fun x => x.target_latitude) with _ | mv
  · have hnil : List.filterMap (fun x => x.target_latitude) df.rows = [] := by
      have hc := hm
      unfold colMedian at hc
      exact medianOpt_eq_none.mp hc
    have h2 : colMedian (engineerFrame df) (fun x => x.target_latitude) = none := by
      unfold colMedian
      rw [medianOpt_eq_none]
      rw [engineerFrame]
      dsimp only
      rw [List.filterMap_map]
      have hfun : ((fun x : Row => x.target_latitude) ∘
          engineerRow df (colMedian df (fun x => x.source_latitude))
            (colMedian df (fun x => x.source_longitude))
            (colMedian df (fun x => x.target_latitude))
            (colMedian df (fun x => x.target_longitude)))
          = fun x : Row => x.target_latitude := by
        funext x
        simp only [Function.comp_apply, engineerRow, hm]
        cases df.hasTargetLat <;> simp [fillCell]
      rw [hfun]
      exact hnil
    rw [h2]
    rfl
  · have hv : fillCell (some mv) v = some (v.getD mv) := rfl
    rw [hv]
    exact fillCell_some _ _

lemma fill_idem_tlon (df : Frame) (v : Option ℚ) :
    fillCell (colMedian (engineerFrame df) (fun x => x.target_longitude))
      (fillCell (colMedian df (fun x => x.target_longitude)) v)
    = fillCell (colMedian df (fun x => x.target_longitude)) v := by
  rcases hm : colMedian df (fun x => x.target_longitude) with _ | mv
  · have hnil : List.filterMap (fun x => x.target_longitude) df.rows = [] := by
      have hc := hm
      unfold colMedian at hc
      exact medianOpt_eq_none.mp hc
    have h2 : colMedian (engineerFrame df) (fun x => x.target_longitude) = none := by
      unfold colMedian
      rw [medianOpt_eq_none]
      rw [engineerFrame]
      dsimp only
      rw [List.filterMap_map]
      have hfun : ((fun x : Row => x.target_longitude) ∘
          engineerRow df (colMedian df (fun x => x.source_latitude))
            (colMedian df (fun x => x.source_longitude))
            (colMedian df (fun x => x.target_latitude))
            (colMedian df (fun x => x.target_longitude)))
          = fun x : Row => x.target_longitude := by
        funext x
        simp only [Function.comp_apply, engineerRow, hm]
        cases df.hasTargetLon <;> simp [fillCell]
      rw [hfun]
      exact hnil
    rw [h2]
    rfl
  · have hv : fillCell (some mv) v = some (v.getD mv) := rfl
    rw [hv]
    exact fillCell_some _ _

lemma catCount_engineerFrame_source (df : Frame) (h : df.hasSourceCountry = true)
    (v : String) :
    catCount (engineerFrame df) (fun x => x.source_country) v
    = catCount df (fun x => x.source_country) v := by
  unfold catCount
  rw [engineerFrame]
  dsimp only
  rw [List.map_map]
  congr 1
  apply List.map_congr_left
  intro x _
  simp [Function.comp, engineerRow, h, fillCat]

lemma catCount_engineerFrame_attack (df : Frame) (h : df.hasAttackType = true)
    (v : String) :
    catCount (engineerFrame df) (fun x => x.attack_type) v
    = catCount df (fun x => x.attack_type) v := by
  unfold catCount
  rw [engineerFrame]
  dsimp only
  rw [List.map_map]
  congr 1
  apply List.map_congr_left
  intro x _
  simp [Function.comp, engineerRow, h, fillCat]

lemma engineerRow_engineerRow (df : Frame) (r : Row) :
    engineerRow (engineerFrame df)
      (colMedian (engineerFrame df) (fun x => x.source_latitude))
      (colMedian (engineerFrame df) (fun x => x.source_longitude))
      (colMedian (engineerFrame df) (fun x => x.target_latitude))
      (colMedian (engineerFrame df) (fun x => x.target_longitude))
      (engineerRow df
        (colMedian df (fun x => x.source_latitude))
        (colMedian df (fun x => x.source_longitude))
        (colMedian df (fun x => x.target_latitude))
        (colMedian df (fun x => x.target_longitude)) r)
    = engineerRow df
        (colMedian df (fun x => x.source_latitude))
        (colMedian df (fun x => x.source_longitude))
        (colMedian df (fun x => x.target_latitude))
        (colMedian df (fun x => x.target_longitude)) r := by
  unfold engineerRow
  dsimp only
  simp only [Row.mk.injEq, true_and, and_true, engineerFrame_hasAttackType,
    engineerFrame_hasSourceCountry, engineerFrame_hasTargetCountry,
    engineerFrame_hasDataSource, engineerFrame_hasSourceLat, engineerFrame_hasSourceLon,
    engineerFrame_hasTargetLat, engineerFrame_hasTargetLon, engineerFrame_hasTimestamp]
  refine ⟨?_, ?_, ?_, ?_, ?_, ?_, ?_, ?_, ?_, ?_, ?_, ?_, ?_, ?_, ?_⟩
  · split_ifs <;> simp [fillCat]
  · split_ifs <;> simp [fillCat]
  · split_ifs <;> simp [fillCat]
  · split_ifs <;> simp [fillCat]
  · split_ifs with h
    · exact fill_idem_slat df r.source_latitude
    · rfl
  · split_ifs with h
    · exact fill_idem_slon df r.source_longitude
    · rfl
  · split_ifs with h
    · exact fill_idem_tlat df r.target_latitude
    · rfl
  · split_ifs with h
    · exact fill_idem_tlon df r.target_longitude
    · rfl
  · split_ifs <;> rfl
  · split_ifs <;> rfl
  · split_ifs <;> rfl
  · split_ifs <;> rfl
  · split_ifs <;> rfl
  · split_ifs with h
    · rw [fillCat_some]
      exact catCount_engineerFrame_source df h _
    · rfl
  · split_ifs with h
    · rw [fillCat_some]
      exact catCount_engineerFrame_attack df h _
    · rfl

lemma engineerFrame_idem (df : Frame) :
    engineerFrame (engineerFrame df) = engineerFrame df := by
  have hrows : (engineerFrame (engineerFrame df)).rows = (engineerFrame df).rows := by
    show ((engineerFrame df).rows.map _) = (engineerFrame df).rows
    conv_lhs => rw [engineerFrame]
    dsimp only
    rw [List.map_map]
    conv_rhs => rw [engineerFrame]
    dsimp only
    apply List.map_congr_left
    intro r _
    exact engineerRow_engineerRow df r
  cases df with
  | mk f1 f2 f3 f4 f5 f6 f7 f8 f9 f10 f11 f12 f13 rows =>
    refine Frame.mk.injEq .. |>.mpr ?_
    refine ⟨rfl, rfl, rfl, rfl, rfl, rfl, rfl, rfl, rfl, rfl, ?_, ?_, ?_, ?_⟩
    · show (f10 || (f10 || f11)) = (f10 || f11)
      cases f10 <;> simp
    · show (f2 || (f2 || f12)) = (f2 || f12)
      cases f2 <;> simp
    · show (f1 || (f1 || f13)) = (f1 || f13)
      cases f1 <;> simp
    · exact hrows

lemma preprocess_idem (df : Frame) :
    preprocess_data (preprocess_data df) = preprocess_data df := by
  unfold preprocess_data
  by_cases h : df.rows = []
  · rw [if_pos h, if_pos (show Frame.empty.rows = [] from rfl)]
  · rw [if_neg h, if_neg (engineerFrame_rows_ne_nil h)]
    exact engineerFrame_idem df

lemma clustering_on_engineered {df : Frame} (h : df.rows ≠ []) :
    train_clustering_model (preprocess_data df) = train_clustering_model df := by
  have hE : (preprocess_data df).rows ≠ [] := fun he => h ((preprocess_rows_eq_nil df).mp he)
  unfold train_clustering_model
  rw [if_neg hE, if_neg h, preprocess_idem]

lemma anomaly_on_engineered (forest : Frame → ℚ → ℕ → List ℚ × List ℤ)
    (c : ℚ) {df : Frame} (h : df.rows ≠ []) :
    train_anomaly_detection_model forest (preprocess_data df) c
      = train_anomaly_detection_model forest df c := by
  have hE : (preprocess_data df).rows ≠ [] := fun he => h ((preprocess_rows_eq_nil df).mp he)
  unfold train_anomaly_detection_model
  rw [if_neg hE, if_neg h, preprocess_idem]

lemma prediction_on_engineered (classifier : Frame → PredictionResult)
    {df : Frame} (h : df.rows ≠ []) :
    train_target_prediction_model classifier (preprocess_data df)
      = train_target_prediction_model classifier df := by
  have hE : (preprocess_data df).rows ≠ [] := fun he => h ((preprocess_rows_eq_nil df).mp he)
  unfold train_target_prediction_model
  rw [if_neg hE, if_neg h, preprocess_idem]

lemma temporal_on_engineered (A : List ℚ → List ℚ) {df : Frame} (h : df.rows ≠ []) :
    analyze_temporal_patterns A (preprocess_data df) = analyze_temporal_patterns A df := by
  have hE : (preprocess_data df).rows ≠ [] := fun he => h ((preprocess_rows_eq_nil df).mp he)
  unfold analyze_temporal_patterns
  unfold tempTimestamps tempSeries tempTimestamps
  rw [if_neg hE, if_neg h, preprocess_idem]

lemma campaign_on_engineered (tsd ma : ℤ) {df : Frame} (h : df.rows ≠ []) :
    identify_attack_campaign (preprocess_data df) tsd ma
      = identify_attack_campaign df tsd ma := by
  have hE : (preprocess_data df).rows ≠ [] := fun he => h ((preprocess_rows_eq_nil df).mp he)
  unfold identify_attack_campaign
  rw [if_neg hE, if_neg h, preprocess_idem]

/-! ### The claims -/

/-- C1.  Every fit/analyze operation of components 4.2–4.6 returns a result
with `success = False` and a non-empty message when called on a table with
zero rows; the empty-table guard sits before any fallible work, and every
embedded component is a total function, so no exception crosses the
component boundary. -/
theorem empty_input_components_fail
    (forest : Frame → ℚ → ℕ → List ℚ × List ℤ) (classifier : Frame → PredictionResult)
    (A : List ℚ → List ℚ) (contamination : ℚ) (timespanDays minAttacks : ℤ)
    (df : Frame) (h : df.rows = []) :
    ((train_clustering_model df).success = false ∧
      (train_clustering_model df).message ≠ "") ∧
    ((train_anomaly_detection_model forest df contamination).success = false ∧
      (train_anomaly_detection_model forest df contamination).message ≠ "") ∧
    ((train_target_prediction_model classifier df).success = false ∧
      (train_target_prediction_model classifier df).message ≠ "") ∧
    ((analyze_temporal_patterns A df).success = false ∧
      (analyze_temporal_patterns A df).message ≠ "") ∧
    ((identify_attack_campaign df timespanDays minAttacks).success = false ∧
      (identify_attack_campaign df timespanDays minAttacks).message ≠ "") := by
  have h1 : train_clustering_model df = { success := false, message := "No data provided" } := by
    unfold train_clustering_model
    rw [if_pos h]
  have h2 : train_anomaly_detection_model forest df contamination
      = { success := false, message := "No data provided" } := by
    unfold train_anomaly_detection_model
    rw [if_pos h]
  have h3 : train_target_prediction_model classifier df
      = { success := false, message := "No data provided" } := by
    unfold train_target_prediction_model
    rw [if_pos h]
  have h4 : analyze_temporal_patterns A df
      = { success := false, message := "No data provided" } := by
    unfold analyze_temporal_patterns
    rw [if_pos h]
  have h5 : identify_attack_campaign df timespanDays minAttacks
      = { success := false, message := "No data provided" } := by
    unfold identify_attack_campaign
    rw [if_pos h]
  rw [h1, h2, h3, h4, h5]
  refine ⟨⟨rfl, by decide⟩, ⟨rfl, by decide⟩, ⟨rfl, by decide⟩, ⟨rfl, by decide⟩,
    ⟨rfl, by decide⟩⟩

/-- Witness for C1 at the empty table. -/
theorem empty_input_components_fail_witness :
    Frame.empty.rows = [] ∧
      ((train_clustering_model Frame.empty).success = false ∧
        (train_clustering_model Frame.empty).message ≠ "") ∧
      ((train_anomaly_detection_model trivialForest Frame.empty (5 / 100)).success = false ∧
        (train_anomaly_detection_model trivialForest Frame.empty (5 / 100)).message ≠ "") ∧
      ((train_target_prediction_model trivialClassifier Frame.empty).success = false ∧
        (train_target_prediction_model trivialClassifier Frame.empty).message ≠ "") ∧
      ((analyze_temporal_patterns idMag Frame.empty).success = false ∧
        (analyze_temporal_patterns idMag Frame.empty).message ≠ "") ∧
      ((identify_attack_campaign Frame.empty 30 5).success = false ∧
        (identify_attack_campaign Frame.empty 30 5).message ≠ "") :=
  ⟨rfl, empty_input_components_fail trivialForest trivialClassifier idMag (5 / 100) 30 5
    Frame.empty rfl⟩

/-- C7.  The anomaly component passes the one fixed seed 42 to the
isolation-forest backend and threads no other varying state: any two
backends that agree at seed 42 — in particular the same deterministic
library fit run twice — produce identical `is_anomaly` flag vectors on
identical input, whatever they do at other seeds. -/
theorem anomaly_seed_determinism (f1 f2 : Frame → ℚ → ℕ → List ℚ × List ℤ)
    (hf : ∀ d c, f1 d c 42 = f2 d c 42) (df : Frame) (contamination : ℚ) :
    (train_anomaly_detection_model f1 df contamination).is_anomaly
      = (train_anomaly_detection_model f2 df contamination).is_anomaly := by
  unfold train_anomaly_detection_model
  simp only [hf]

/-- Witness for C7: two syntactically different backends agreeing at seed
42. -/
theorem anomaly_seed_determinism_witness :
    (∀ d c, trivialForest d c 42 = altForest d c 42) ∧
      (train_anomaly_detection_model trivialForest T1 (5 / 100)).is_anomaly
        = (train_anomaly_detection_model altForest T1 (5 / 100)).is_anomaly :=
  ⟨fun _ _ => rfl,
    anomaly_seed_determinism trivialForest altForest (fun _ _ => rfl) T1 (5 / 100)⟩

/-- C8.  The source orchestrator hands the raw table to each component, each
of which invokes the Feature Engineer itself; this is observationally equal
to the specification's picture — one Feature Engineer pass whose output is
shared by components 4.2–4.6 — because feature engineering is idempotent,
so each component's internal pass reproduces the shared table while the
component still fits its own scaling/encoding preprocessing. -/
theorem orchestrator_single_engineering_pass
    (forest : Frame → ℚ → ℕ → List ℚ × List ℤ) (classifier : Frame → PredictionResult)
    (A : List ℚ → List ℚ) (df : Frame) :
    train_models_on_attack_data forest classifier A df
      = train_models_spec forest classifier A df := by
  unfold train_models_on_attack_data train_models_spec
  by_cases h : df.rows = []
  · rw [if_pos h, if_pos ((preprocess_rows_eq_nil df).mpr h)]
  · rw [if_neg h, if_neg (fun he => h ((preprocess_rows_eq_nil df).mp he))]
    rw [preprocess_rows_length df]
    rw [clustering_on_engineered h, anomaly_on_engineered forest (5 / 100) h,
      prediction_on_engineered classifier h, temporal_on_engineered A h,
      campaign_on_engineered 30 5 h]

/-- C10.  The orchestrator's top-level `success` flag depends only on data
availability: it is `True` for every non-empty input, and the concrete table
`F0` exhibits a run where all five nested component results carry
`success = False` while the top level still reports `success = True`. -/
theorem orchestrator_success_reflects_data_only :
    (∀ (forest : Frame → ℚ → ℕ → List ℚ × List ℤ)
        (classifier : Frame → PredictionResult) (A : List ℚ → List ℚ)
        (df : Frame), df.rows ≠ [] →
      (train_models_on_attack_data forest classifier A df).success = true) ∧
    ((train_models_on_attack_data trivialForest trivialClassifier idMag F0).success = true ∧
     (train_models_on_attack_data trivialForest trivialClassifier idMag F0).clustering.success
        = false ∧
     (train_models_on_attack_data trivialForest trivialClassifier idMag F0).anomaly.success
        = false ∧
     (train_models_on_attack_data trivialForest trivialClassifier idMag F0).prediction.success
        = false ∧
     (train_models_on_attack_data trivialForest trivialClassifier idMag F0).temporal.success
        = false ∧
     (train_models_on_attack_data trivialForest trivialClassifier idMag F0).campaigns.success
        = false) := by
  constructor
  · intro forest classifier A df h
    unfold train_models_on_attack_data
    rw [if_neg h]
  · exact ⟨by decide, by decide, by decide, by decide, by decide, by decide⟩

/-- Witness for C10 at the all-components-fail table `F0`. -/
theorem orchestrator_success_reflects_data_only_witness :
    F0.rows ≠ [] ∧
      (train_models_on_attack_data trivialForest trivialClassifier idMag F0).success = true :=
  ⟨by decide,
    orchestrator_success_reflects_data_only.1 trivialForest trivialClassifier idMag F0
      (by decide)⟩

lemma clusterLabels_length (data : Frame) :
    (clusterLabels data).length = data.rows.length := by
  unfold clusterLabels dbscanLabels
  rw [List.length_map, List.length_range]

/-- C2.  Every campaign candidate the correlator returns has at least
`min_attacks` events and a day span (floor of `max − min`, as
`Timedelta.days` computes it) within `timespan_days`, and the returned list
is sorted descending by `attack_count`, for every input table and every
parameter choice. -/
theorem campaign_invariants (df : Frame) (tsd ma : ℤ) :
    (∀ c ∈ (identify_attack_campaign df tsd ma).campaigns,
      ma ≤ (c.attack_count : ℤ) ∧ (c.timespan_days : ℤ) ≤ tsd) ∧
    List.Sorted campGe (identify_attack_campaign df tsd ma).campaigns := by
  unfold identify_attack_campaign
  split
  · exact ⟨fun c hc => absurd hc (by simp), by simp⟩
  · dsimp only
    split
    · exact ⟨fun c hc => absurd hc (by simp), by simp⟩
    · constructor
      · intro c hc
        dsimp only at hc
        have hc2 := (List.mem_insertionSort campGe).mp hc
        split at hc2
        · rcases List.mem_filterMap.mp hc2 with ⟨k, _, hck⟩
          unfold campaignOfGroup at hck
          split at hck
          · exact absurd hck (by simp)
          · rename_i hlen
            dsimp only at hck
            split at hck
            · rename_i hspan
              have hcc := Option.some.inj hck
              subst hcc
              exact ⟨le_of_not_lt hlen, hspan⟩
            · exact absurd hck (by simp)
        · exact absurd hc2 (by simp)
      · dsimp only
        exact List.sorted_insertionSort campGe _

/-- Witness for C2 at the five-event single-key table `T2`. -/
theorem campaign_invariants_witness :
    C2w ∈ (identify_attack_campaign T2 30 5).campaigns ∧
      ((5 : ℤ) ≤ (C2w.attack_count : ℤ) ∧ (C2w.timespan_days : ℤ) ≤ 30) := by
  have heq : (identify_attack_campaign T2 30 5).campaigns = [C2w] := by
    with_unfolding_all rfl
  have hmem : C2w ∈ (identify_attack_campaign T2 30 5).campaigns := by
    rw [heq]
    exact List.mem_singleton_self C2w
  exact ⟨hmem, (campaign_invariants T2 30 5).1 C2w hmem⟩

/-- C3 counterexample: on the one-row table `T1` the clustering fit labels
the single row as noise, so the claimed ratio `count(-1)/total` is `1`, but
the value the component returns is the percentage `100`, which is neither
that ratio nor inside `[0, 1]`. -/
theorem noise_ratio_counterexample :
    (train_clustering_model T1).noise_percentage = 100 ∧
      ((train_clustering_model T1).labels.count (-1) : ℚ)
          / ((train_clustering_model T1).labels.length : ℚ) = 1 ∧
      ¬((train_clustering_model T1).noise_percentage ≤ 1) := by
  refine ⟨?_, ?_, ?_⟩ <;> exact of_decide_eq_true (by with_unfolding_all rfl)

/-- C3 amended: on every successful clustering fit the returned value is the
noise percentage — the `-1`-labelled share of rows scaled by 100 — and lies
in `[0, 100]` (the source multiplies the ratio by 100 at
`ml_analyzer.py:151`). -/
theorem noise_percentage_formula (df : Frame) :
    (train_clustering_model df).success = true →
    (train_clustering_model df).noise_percentage
      = ((train_clustering_model df).labels.count (-1) : ℚ)
          / ((train_clustering_model df).labels.length : ℚ) * 100 ∧
    0 ≤ (train_clustering_model df).noise_percentage ∧
    (train_clustering_model df).noise_percentage ≤ 100 := by
  unfold train_clustering_model
  split
  · intro h
    exact absurd h (by simp)
  · rename_i hne
    dsimp only
    split
    · intro h
      exact absurd h (by simp)
    · split
      · intro h
        exact absurd h (by simp)
      · intro _
        have hlen : (clusterLabels (preprocess_data df)).length ≠ 0 := by
          rw [clusterLabels_length, preprocess_rows_length]
          intro h0
          exact hne (List.length_eq_zero.mp h0)
        dsimp only
        rw [if_neg hlen]
        refine ⟨rfl, ?_, ?_⟩
        · apply mul_nonneg
          · apply div_nonneg
            · exact_mod_cast Nat.zero_le _
            · exact_mod_cast Nat.zero_le _
          · norm_num
        · have hlt : 0 < ((clusterLabels (preprocess_data df)).length : ℚ) := by
            exact_mod_cast Nat.pos_of_ne_zero hlen
          have hle : ((clusterLabels (preprocess_data df)).count (-1) : ℚ)
              ≤ ((clusterLabels (preprocess_data df)).length : ℚ) := by
            exact_mod_cast List.count_le_length _ _
          have hdiv : ((clusterLabels (preprocess_data df)).count (-1) : ℚ)
              / ((clusterLabels (preprocess_data df)).length : ℚ) ≤ 1 :=
            (div_le_one hlt).mpr hle
          calc ((clusterLabels (preprocess_data df)).count (-1) : ℚ)
                / ((clusterLabels (preprocess_data df)).length : ℚ) * 100
              ≤ 1 * 100 := by
                apply mul_le_mul_of_nonneg_right hdiv
                norm_num
            _ = 100 := by norm_num

/-- Witness for C3's amended statement at the table `T1`. -/
theorem noise_percentage_formula_witness :
    (train_clustering_model T1).success = true ∧
      ((train_clustering_model T1).noise_percentage
          = ((train_clustering_model T1).labels.count (-1) : ℚ)
              / ((train_clustering_model T1).labels.length : ℚ) * 100 ∧
        0 ≤ (train_clustering_model T1).noise_percentage ∧
        (train_clustering_model T1).noise_percentage ≤ 100) :=
  ⟨of_decide_eq_true (by with_unfolding_all rfl),
    noise_percentage_formula T1 (of_decide_eq_true (by with_unfolding_all rfl))⟩

/-- C4 counterexample: on `T4`, whose `source_latitude` column is entirely
missing, the engineered table still carries the missing value — it is not
replaced by zero, because `fillna(median)` of an all-NaN column fills with
NaN, a no-op. -/
theorem allmissing_numeric_counterexample :
    ((preprocess_data T4).rows.map (fun r => r.source_latitude)) = [none] ∧
      (none : Option ℚ) ≠ some 0 := ⟨by decide, by decide⟩

/-- C4 amended: a numeric column that is entirely missing stays entirely
missing through feature engineering (its median is undefined, and filling
with the undefined median changes nothing), rather than being zeroed. -/
theorem allmissing_numeric_stays_missing (df : Frame)
    (h : ∀ r ∈ df.rows, r.source_latitude = none) :
    ∀ r ∈ (preprocess_data df).rows, r.source_latitude = none := by
  intro r hr
  unfold preprocess_data at hr
  by_cases hne : df.rows = []
  · rw [if_pos hne] at hr
    simp [Frame.empty] at hr
  · rw [if_neg hne] at hr
    rw [engineerFrame] at hr
    dsimp only at hr
    rcases List.mem_map.mp hr with ⟨x, hx, rfl⟩
    have hmed : colMedian df (fun y => y.source_latitude) = none := by
      unfold colMedian
      rw [medianOpt_eq_none, List.filterMap_eq_nil_iff]
      intro a ha
      exact h a ha
    simp [engineerRow, hmed, fillCell, h x hx]

/-- Witness for C4's amended statement at the table `T4`. -/
theorem allmissing_numeric_stays_missing_witness :
    (∀ r ∈ T4.rows, r.source_latitude = none) ∧
      (∀ r ∈ (preprocess_data T4).rows, r.source_latitude = none) :=
  ⟨by decide, allmissing_numeric_stays_missing T4 (by decide)⟩

/-- C5 counterexample: `T5` is non-empty and lacks the structural
`source_country` column, yet `identify_attack_campaign` succeeds (with an
empty campaign list) instead of returning the failure the claim asserts. -/
theorem missing_column_counterexample :
    (identify_attack_campaign T5 30 5).success = true ∧
      (identify_attack_campaign T5 30 5).campaigns = [] := ⟨by decide, by decide⟩

/-- C5 amended: only a missing `timestamp` column makes
`identify_attack_campaign` fail; with the timestamp present, a missing
`source_country`, `target_country` or `attack_type` column merely disables
grouping, and the call succeeds with an empty campaign list (so no campaign
is fabricated from partial data, but no failure is signalled either). -/
theorem campaign_structural_columns (df : Frame) (tsd ma : ℤ) (hne : df.rows ≠ []) :
    (df.hasTimestamp = false →
      (identify_attack_campaign df tsd ma).success = false ∧
        (identify_attack_campaign df tsd ma).message ≠ "") ∧
    (df.hasTimestamp = true →
      (df.hasSourceCountry = false ∨ df.hasTargetCountry = false ∨
        df.hasAttackType = false) →
      (identify_attack_campaign df tsd ma).success = true ∧
        (identify_attack_campaign df tsd ma).campaigns = []) := by
  constructor
  · intro hts
    have hcond : (preprocess_data df).hasTimestamp = false := by
      rw [preprocess_hasTimestamp hne, hts]
    have heq : identify_attack_campaign df tsd ma =
        { success := false,
          message := "Timestamp column is required for campaign identification" } := by
      unfold identify_attack_campaign
      rw [if_neg hne]
      simp only [hcond, if_pos]
    rw [heq]
    exact ⟨rfl, by decide⟩
  · intro hts hflags
    have hcond : ¬((preprocess_data df).hasTimestamp = false) := by
      rw [preprocess_hasTimestamp hne, hts]
      simp
    have hguard : ((preprocess_data df).hasSourceCountry &&
        (preprocess_data df).hasTargetCountry && (preprocess_data df).hasAttackType)
          = false := by
      rw [preprocess_hasSourceCountry hne, preprocess_hasTargetCountry hne,
        preprocess_hasAttackType hne]
      rcases hflags with h | h | h <;> simp [h]
    have heq : identify_attack_campaign df tsd ma =
        { success := true, campaigns := [], campaign_count := 0,
          param_timespan_days := tsd, param_min_attacks := ma } := by
      unfold identify_attack_campaign
      rw [if_neg hne]
      simp only [hguard, hcond, if_neg, if_false, Bool.false_eq_true]
      rfl
    rw [heq]
    exact ⟨rfl, rfl⟩

/-- Witness for C5's amended statement at the table `T5`. -/
theorem campaign_structural_columns_witness :
    T5.rows ≠ [] ∧
      (T5.hasTimestamp = true →
        (T5.hasSourceCountry = false ∨ T5.hasTargetCountry = false ∨
          T5.hasAttackType = false) →
        (identify_attack_campaign T5 30 5).success = true ∧
          (identify_attack_campaign T5 30 5).campaigns = []) :=
  ⟨by decide, (campaign_structural_columns T5 30 5 (by decide)).2⟩

lemma catCount_unknown (l : List Row) (get : Row → Option String) :
    catCount { rows := l } get "unknown"
      = (l.filter (fun r =>
          decide (get r = none ∨ get r = some "unknown"))).length := by
  unfold catCount
  dsimp only
  rw [show (List.count "unknown" (List.map (fun r => fillCat (get r)) l))
      = List.countP (fun s => s == "unknown") (List.map (fun r => fillCat (get r)) l)
      from rfl]
  rw [List.countP_map, ← List.countP_eq_length_filter]
  apply List.countP_congr
  intro r _
  rcases hx : get r with _ | s
  · simp [Function.comp, fillCat, hx]
  · by_cases hs : s = "unknown" <;> simp [Function.comp, fillCat, hx, hs]

/-- C9 counterexample: in `T9` the first row's `source_country` is missing
and the second row carries the literal string `unknown`; the missing row's
frequency encoding is 2, not the number of missing rows (1), because the
imputation sentinel merges with the literal category before counting. -/
theorem sentinel_frequency_counterexample :
    ((preprocess_data T9).rows.map (fun r => r.source_country_frequency)) = [2, 2] ∧
      (T9.rows.filter (fun r => decide (r.source_country = none))).length = 1 ∧
      (2 : ℕ) ≠ 1 := ⟨by decide, by decide, by decide⟩

/-- C9 amended: categorical imputation precedes frequency encoding, so a row
with a missing `source_country` (resp. `attack_type`) receives a frequency
equal to the number of rows whose value is missing or literally the sentinel
string `unknown` — the sentinel is counted as one category together with any
real `unknown` value, not as a category of its own. -/
theorem sentinel_frequency_merged (df : Frame) (i : ℕ) (hi : i < df.rows.length)
    (hsc : df.hasSourceCountry = true) (hat : df.hasAttackType = true) :
    ((df.rows.getD i default).source_country = none →
      ((preprocess_data df).rows.getD i default).source_country_frequency
        = (df.rows.filter (fun r =>
            decide (r.source_country = none ∨ r.source_country = some "unknown"))).length) ∧
    ((df.rows.getD i default).attack_type = none →
      ((preprocess_data df).rows.getD i default).attack_type_frequency
        = (df.rows.filter (fun r =>
            decide (r.attack_type = none ∨ r.attack_type = some "unknown"))).length) := by
  have hne : df.rows ≠ [] := by
    intro h0
    rw [h0] at hi
    simp at hi
  have hrows : (preprocess_data df).rows = df.rows.map
      (engineerRow df (colMedian df (fun x => x.source_latitude))
        (colMedian df (fun x => x.source_longitude))
        (colMedian df (fun x => x.target_latitude))
        (colMedian df (fun x => x.target_longitude))) := by
    unfold preprocess_data
    rw [if_neg hne]
    rfl
  have hget : ((preprocess_data df).rows.getD i default)
      = engineerRow df (colMedian df (fun x => x.source_latitude))
        (colMedian df (fun x => x.source_longitude))
        (colMedian df (fun x => x.target_latitude))
        (colMedian df (fun x => x.target_longitude)) (df.rows.getD i default) := by
    rw [hrows, List.getD_eq_getElem?_getD, List.getElem?_map, List.getElem?_eq_getElem hi,
      List.getD_eq_getElem?_getD, List.getElem?_eq_getElem hi]
    rfl
  constructor
  · intro hmiss
    rw [hget]
    have hval : (engineerRow df (colMedian df (fun x => x.source_latitude))
        (colMedian df (fun x => x.source_longitude))
        (colMedian df (fun x => x.target_latitude))
        (colMedian df (fun x => x.target_longitude))
        (df.rows.getD i default)).source_country_frequency
        = catCount df (fun x => x.source_country) "unknown" := by
      rw [List.getD_eq_getElem?_getD] at hmiss
      simp [engineerRow, hsc, hmiss, fillCat]
    rw [hval]
    exact catCount_unknown df.rows (fun x => x.source_country)
  · intro hmiss
    rw [hget]
    have hval : (engineerRow df (colMedian df (fun x => x.source_latitude))
        (colMedian df (fun x => x.source_longitude))
        (colMedian df (fun x => x.target_latitude))
        (colMedian df (fun x => x.target_longitude))
        (df.rows.getD i default)).attack_type_frequency
        = catCount df (fun x => x.attack_type) "unknown" := by
      rw [List.getD_eq_getElem?_getD] at hmiss
      simp [engineerRow, hat, hmiss, fillCat]
    rw [hval]
    exact catCount_unknown df.rows (fun x => x.attack_type)

/-- Witness for C9's amended statement at row 0 of `T9`. -/
theorem sentinel_frequency_merged_witness :
    (0 < T9.rows.length ∧ T9.hasSourceCountry = true ∧ T9.hasAttackType = true ∧
      (T9.rows.getD 0 default).source_country = none) ∧
      ((preprocess_data T9).rows.getD 0 default).source_country_frequency
        = (T9.rows.filter (fun r =>
            decide (r.source_country = none ∨ r.source_country = some "unknown"))).length :=
  ⟨⟨by decide, rfl, rfl, by decide⟩,
    (sentinel_frequency_merged T9 0 (by decide) rfl rfl).1 (by decide)⟩

lemma roundHalfEven_ge_floor (q : ℚ) : ⌊q⌋ ≤ roundHalfEven q := by
  unfold roundHalfEven
  dsimp only
  split_ifs <;> omega

lemma roundTenth_gt_one {q : ℚ} (h : 2 < q) : 1 < roundTenth q := by
  have h20 : (20 : ℤ) ≤ ⌊10 * q⌋ := by
    apply Int.le_floor.mpr
    push_cast
    linarith
  have h2 : (20 : ℤ) ≤ roundHalfEven (10 * q) :=
    le_trans h20 (roundHalfEven_ge_floor _)
  have h3 : (20 : ℚ) ≤ (roundHalfEven (10 * q) : ℚ) := by exact_mod_cast h2
  unfold roundTenth
  linarith

lemma fftCandidates_mem {A : List ℚ → List ℚ} {counts : List ℕ} {p : ℚ × ℚ}
    (hp : p ∈ fftCandidates A counts) :
    halfMax A counts / 10 < p.2 ∧ 2 < p.1 := by
  unfold fftCandidates at hp
  rcases List.mem_filterMap.mp hp with ⟨i, hi, hif⟩
  rcases List.mem_range'_1.mp hi with ⟨hi1, hi2⟩
  have hlt : 2 * i < counts.length := by omega
  have hper : (2 : ℚ) < (counts.length : ℚ) / (i : ℚ) := by
    rw [lt_div_iff₀ (by exact_mod_cast hi1)]
    exact_mod_cast hlt
  split at hif
  · split at hif
    · rename_i hmag _
      have hpp := Option.some.inj hif
      subst hpp
      exact ⟨hmag, hper⟩
    · exact absurd hif (by simp)
  · exact absurd hif (by simp)

/-- C6.  With fewer than 14 days between the earliest and latest event the
temporal component returns no periodic patterns; otherwise every returned
pattern has a period above one day (the candidate period `n/i` always
exceeds two days, so its one-decimal rounding exceeds one), a magnitude
above 10% of the maximal non-DC half-spectrum magnitude, and at most the
top 3 patterns, listed in descending magnitude order, are returned. -/
theorem temporal_periodicity (A : List ℚ → List ℚ) (df : Frame)
    (h1 : df.rows ≠ []) (h2 : df.hasTimestamp = true) :
    ((listMaxNat (tempTimestamps df) < listMinNat (tempTimestamps df) + 14 * 86400 →
        (analyze_temporal_patterns A df).periodic_patterns = []) ∧
      (∀ p ∈ (analyze_temporal_patterns A df).periodic_patterns,
        1 < p.1 ∧ halfMax A (tempSeries df) / 10 < p.2) ∧
      (analyze_temporal_patterns A df).periodic_patterns.length ≤ 3 ∧
      List.Sorted strengthGe (analyze_temporal_patterns A df).periodic_patterns) := by
  have hts : ¬((preprocess_data df).hasTimestamp = false) := by
    rw [preprocess_hasTimestamp h1, h2]
    simp
  have heq : (analyze_temporal_patterns A df).periodic_patterns
      = (if listMinNat (tempTimestamps df) + 14 * 86400 ≤ listMaxNat (tempTimestamps df)
          then topPeriods A (tempSeries df) else []).map
        (fun p => (roundTenth p.1, p.2)) := by
    unfold analyze_temporal_patterns
    rw [if_neg h1]
    simp only [hts, if_neg, if_false, Bool.false_eq_true]
    rfl
  rw [heq]
  refine ⟨?_, ?_, ?_, ?_⟩
  · intro hspan
    rw [if_neg (by omega)]
    rfl
  · intro p hp
    by_cases hcond : listMinNat (tempTimestamps df) + 14 * 86400
        ≤ listMaxNat (tempTimestamps df)
    · rw [if_pos hcond] at hp
      rcases List.mem_map.mp hp with ⟨q, hq, rfl⟩
      have hq2 : q ∈ List.insertionSort strengthGe (fftCandidates A (tempSeries df)) :=
        List.mem_of_mem_take hq
      have hq3 : q ∈ fftCandidates A (tempSeries df) :=
        (List.mem_insertionSort strengthGe).mp hq2
      have hc := fftCandidates_mem hq3
      exact ⟨roundTenth_gt_one hc.2, hc.1⟩
    · rw [if_neg hcond] at hp
      exact absurd hp (by simp)
  · by_cases hcond : listMinNat (tempTimestamps df) + 14 * 86400
        ≤ listMaxNat (tempTimestamps df)
    · rw [if_pos hcond, List.length_map]
      exact List.length_take_le 3 _
    · rw [if_neg hcond]
      simp
  · by_cases hcond : listMinNat (tempTimestamps df) + 14 * 86400
        ≤ listMaxNat (tempTimestamps df)
    · rw [if_pos hcond]
      have hs : List.Sorted strengthGe
          (List.insertionSort strengthGe (fftCandidates A (tempSeries df))) :=
        List.sorted_insertionSort strengthGe _
      have ht : List.Sorted strengthGe (topPeriods A (tempSeries df)) :=
        hs.sublist (List.take_sublist 3 _)
      rw [List.Sorted, List.pairwise_map]
      exact ht
    · rw [if_neg hcond]
      simp

/-- Witness for C6 at the twenty-day two-event table `T6` with the identity
magnitude backend. -/
theorem temporal_periodicity_witness :
    (T6.rows ≠ [] ∧ T6.hasTimestamp = true) ∧
      ((listMaxNat (tempTimestamps T6) < listMinNat (tempTimestamps T6) + 14 * 86400 →
          (analyze_temporal_patterns idMag T6).periodic_patterns = []) ∧
        (∀ p ∈ (analyze_temporal_patterns idMag T6).periodic_patterns,
          1 < p.1 ∧ halfMax idMag (tempSeries T6) / 10 < p.2) ∧
        (analyze_temporal_patterns idMag T6).periodic_patterns.length ≤ 3 ∧
        List.Sorted strengthGe (analyze_temporal_patterns idMag T6).periodic_patterns) :=
  ⟨⟨by decide, rfl⟩, temporal_periodicity idMag T6 (by decide) rfl⟩

end MLAnalyzer
